import Mathlib

/-
Verification of the adljack player-abstraction layer (src/sources/common.cc)
against its natural-language specification.

The embedding models the file's four core operations:
  * generic_play_midi        (MIDI decode and dispatch, lines 164-218)
  * generic_generate_outputs (audio-block generation, lines 220-274)
  * generic_player_dynamic_set_chip_count / _set_emulator / _load_bank
                             (control-plane reconfiguration, lines 314-357)

External collaborators (the Player_Traits backend, the DcFilter and the
VuMonitor, whose implementations are outside this translation unit) are
modelled as parameters: the backend as the trace of events it receives and
as the sample values its render call writes; the two filters as arbitrary
state-transition functions.  Mutex operations and the ordering of calls are
recorded in an explicit event trace.  Float samples and the double-valued
telemetry are modelled over the rationals.
-/

namespace Adljack

/-- The Program struct: only its gm field is touched by this file
    (channel_map[channel].gm = pgm at line 210). -/
structure Program where
  gm : Nat
  deriving DecidableEq

/-- One call into the Player_Traits backend made by generic_play_midi. -/
inductive BackendEvent
  | noteOn (ch key vel : Nat)
  | noteOff (ch key : Nat)
  | noteAftertouch (ch key v : Nat)
  | channelAftertouch (ch v : Nat)
  | controllerChange (ch ctl v : Nat)
  | programChange (ch pgm : Nat)
  | pitchbendMl (ch msb lsb : Nat)
  deriving DecidableEq

/-- Embedding of generic_play_midi (common.cc lines 164-218).

    Inputs: the current channel_map, whether the try_to_lock on player_mutex
    succeeded (line 171-173), and the raw message bytes.  Output: the list
    of backend calls made, and the channel_map afterwards.  The C switch
    falls through from the velocity-0 note-on case into the note-off case,
    which re-executes that case's length guard; the embedding repeats the
    guard the same way. -/
def generic_play_midi (cm : Nat → Program) (lock_ok : Bool) (msg : List Nat) :
    List BackendEvent × (Nat → Program) :=
  if !lock_ok then ([], cm)
  else if msg.length = 0 then ([], cm)
  else if msg.headD 0 &&& 0xf0 = 0xf0 then ([], cm)
  else if msg.headD 0 >>> 4 = 9 then
    if msg.length < 3 then ([], cm)
    else if msg.getD 2 0 ≠ 0 then
      ([BackendEvent.noteOn (msg.headD 0 &&& 0x0f) (msg.getD 1 0) (msg.getD 2 0)], cm)
    else if msg.length < 3 then ([], cm)
    else ([BackendEvent.noteOff (msg.headD 0 &&& 0x0f) (msg.getD 1 0)], cm)
  else if msg.headD 0 >>> 4 = 8 then
    if msg.length < 3 then ([], cm)
    else ([BackendEvent.noteOff (msg.headD 0 &&& 0x0f) (msg.getD 1 0)], cm)
  else if msg.headD 0 >>> 4 = 10 then
    if msg.length < 3 then ([], cm)
    else ([BackendEvent.noteAftertouch (msg.headD 0 &&& 0x0f) (msg.getD 1 0) (msg.getD 2 0)], cm)
  else if msg.headD 0 >>> 4 = 13 then
    if msg.length < 2 then ([], cm)
    else ([BackendEvent.channelAftertouch (msg.headD 0 &&& 0x0f) (msg.getD 1 0)], cm)
  else if msg.headD 0 >>> 4 = 11 then
    if msg.length < 3 then ([], cm)
    else ([BackendEvent.controllerChange (msg.headD 0 &&& 0x0f) (msg.getD 1 0) (msg.getD 2 0)], cm)
  else if msg.headD 0 >>> 4 = 12 then
    if msg.length < 2 then ([], cm)
    else ([BackendEvent.programChange (msg.headD 0 &&& 0x0f) (msg.getD 1 0 &&& 0x7f)],
          fun c => if c = msg.headD 0 &&& 0x0f then { gm := msg.getD 1 0 &&& 0x7f } else cm c)
  else if msg.headD 0 >>> 4 = 14 then
    if msg.length < 3 then ([], cm)
    else ([BackendEvent.pitchbendMl (msg.headD 0 &&& 0x0f) (msg.getD 2 0) (msg.getD 1 0)], cm)
  else ([], cm)

/-- One observable step of generic_generate_outputs: the mutex operations,
    the backend render call (with the sample count it is passed), each
    iteration of the filtering loop, and the two telemetry stores. -/
inductive GenEvent
  | try_acquire (ok : Bool)
  | render_call (nsamples : Nat)
  | release_token
  | filter_frame (i : Nat)
  | store_lv
  | store_cpu
  deriving DecidableEq

/-- The external collaborators of generic_generate_outputs, as parameters:
    the per-frame samples the backend render call writes into each buffer,
    the DcFilter and VuMonitor process methods (defined outside this
    translation unit) as state-transition functions, the measured duration
    of the render call in whole microseconds (the code truncates the
    steady_clock duration to microseconds at line 272), and the global
    player_sample_rate. -/
structure Backend (σ τ : Type) where
  renderL : Nat → ℚ
  renderR : Nat → ℚ
  dc_process : σ → ℚ → σ × ℚ
  lv_process : τ → ℚ → τ × ℚ
  gen_micros : Nat
  sample_rate : Nat

/-- The state generic_generate_outputs touches: the two caller buffers
    (indexed by sample position), the four filter states, and the three
    globals lvcurrent[0], lvcurrent[1] and cpuratio (the last is named
    cpu_load here). -/
structure GenState (σ τ : Type) where
  left : Nat → ℚ
  right : Nat → ℚ
  dclf : σ
  dcrf : σ
  lvm0 : τ
  lvm1 : τ
  lv0 : ℚ
  lv1 : ℚ
  cpu_load : ℚ

/-- Point update of a buffer. -/
def updateAt (buf : Nat → ℚ) (j : Nat) (v : ℚ) : Nat → ℚ :=
  fun k => if k = j then v else buf k

/-- The strided write loop shared by the contended zero-fill (lines 234-239,
    with vals constantly 0) and by the backend render (which writes frame i
    of each channel at position i * stride, per the sampleOffset it is given
    at line 246): frames 0 .. n-1 are written in order. -/
def strideFill (buf : Nat → ℚ) (stride : Nat) (vals : Nat → ℚ) : Nat → (Nat → ℚ)
  | 0 => buf
  | n + 1 => updateAt (strideFill buf stride vals n) (n * stride) (vals n)

/-- State carried by the post-processing loop of lines 256-266. -/
structure FilterSt (σ τ : Type) where
  left : Nat → ℚ
  right : Nat → ℚ
  dclf : σ
  dcrf : σ
  lvm0 : τ
  lvm1 : τ
  lv0 : ℚ
  lv1 : ℚ

/-- One iteration of the post-processing loop: read the strided sample of
    each channel, DC-filter it (outputgain is 1.0), level-monitor it, and
    write the filtered value back in place. -/
def filterStep (b : Backend σ τ) (stride : Nat) (i : Nat) (s : FilterSt σ τ) :
    FilterSt σ τ :=
  let l1 := b.dc_process s.dclf (1 * s.left (i * stride))
  let r1 := b.dc_process s.dcrf (1 * s.right (i * stride))
  let m0 := b.lv_process s.lvm0 l1.2
  let m1 := b.lv_process s.lvm1 r1.2
  { left := updateAt s.left (i * stride) l1.2
    right := updateAt s.right (i * stride) r1.2
    dclf := l1.1
    dcrf := r1.1
    lvm0 := m0.1
    lvm1 := m1.1
    lv0 := m0.2
    lv1 := m1.2 }

/-- The post-processing loop over frames 0 .. n-1 in order. -/
def filterLoop (b : Backend σ τ) (stride : Nat) : Nat → FilterSt σ τ → FilterSt σ τ
  | 0, s => s
  | n + 1, s => filterStep b stride n (filterLoop b stride n s)

/-- Embedding of generic_generate_outputs (common.cc lines 220-274).

    lock_ok tells whether the try_to_lock on player_mutex succeeds.  On the
    contended path the strided samples are zeroed and the function returns.
    On the uncontended path the backend renders 2 * nframes sample slots
    into the strided buffer positions, the lock is released, the filter loop
    runs, the lvcurrent globals take the last frame's monitor outputs (the
    loop runs at least once here since nframes is nonzero), and cpuratio is
    set to gen-seconds / (nframes / sample_rate) with gen-seconds the
    microsecond count times 1e-6, modelled exactly over ℚ. -/
def generic_generate_outputs (b : Backend σ τ) (st : GenState σ τ)
    (nframes stride : Nat) (lock_ok : Bool) : GenState σ τ × List GenEvent :=
  if nframes = 0 then (st, [])
  else if !lock_ok then
    ({ st with
        left := strideFill st.left stride (fun _ => 0) nframes
        right := strideFill st.right stride (fun _ => 0) nframes },
     [GenEvent.try_acquire false])
  else
    let fs := filterLoop b stride nframes
      { left := strideFill st.left stride b.renderL nframes
        right := strideFill st.right stride b.renderR nframes
        dclf := st.dclf
        dcrf := st.dcrf
        lvm0 := st.lvm0
        lvm1 := st.lvm1
        lv0 := 0
        lv1 := 0 }
    ({ left := fs.left
       right := fs.right
       dclf := fs.dclf
       dcrf := fs.dcrf
       lvm0 := fs.lvm0
       lvm1 := fs.lvm1
       lv0 := fs.lv0
       lv1 := fs.lv1
       cpu_load := ((b.gen_micros : ℚ) / 1000000) / ((nframes : ℚ) / (b.sample_rate : ℚ)) },
     [GenEvent.try_acquire true, GenEvent.render_call (2 * nframes),
      GenEvent.release_token]
       ++ (List.range nframes).map GenEvent.filter_frame
       ++ [GenEvent.store_lv, GenEvent.store_cpu])

/-- The registry state the three dynamic reconfiguration operations touch:
    the globals player_emulator_id and player_bank_file (a C pointer that is
    null until a bank file is loaded, hence Option). -/
structure PlayerRegistry where
  player_emulator_id : Nat
  player_bank_file : Option String
  deriving DecidableEq

/-- One observable step of a dynamic reconfiguration operation: the blocking
    lock_guard acquisition, the panic call, and the backend mutation with
    its argument. -/
inductive CtlEvent
  | acquire_blocking
  | panic_call
  | set_num_chips (n : Nat)
  | switch_emulator (e : Nat)
  | open_bank_file (path : String)
  deriving DecidableEq

/-- Result of a dynamic reconfiguration operation.  reported is the value
    the C function returns to its caller: none when the function's return
    type is void (it returns no value at all), some b when it returns the
    bool b. -/
structure CtlResult where
  reg : PlayerRegistry
  reported : Option Bool
  trace : List CtlEvent
  deriving DecidableEq

/-- Embedding of generic_player_dynamic_set_chip_count (lines 314-325).
    The backend's set_num_chips return value (negative on failure) is taken
    as a parameter; the code ignores it, touches no registry state, and the
    C function returns void. -/
def generic_player_dynamic_set_chip_count (set_num_chips_result : Int)
    (reg : PlayerRegistry) (nchip : Nat) : CtlResult :=
  { reg := reg
    reported := none
    trace := [CtlEvent.acquire_blocking, CtlEvent.panic_call,
              CtlEvent.set_num_chips nchip] }

/-- Embedding of generic_player_dynamic_set_emulator (lines 327-340).
    The backend's switch_emulator return value (negative on failure) is a
    parameter.  On failure the function returns early without writing
    player_emulator_id; either way the C function returns void. -/
def generic_player_dynamic_set_emulator (switch_emulator_result : Int)
    (reg : PlayerRegistry) (emulator : Nat) : CtlResult :=
  if switch_emulator_result < 0 then
    { reg := reg
      reported := none
      trace := [CtlEvent.acquire_blocking, CtlEvent.panic_call,
                CtlEvent.switch_emulator emulator] }
  else
    { reg := { reg with player_emulator_id := emulator }
      reported := none
      trace := [CtlEvent.acquire_blocking, CtlEvent.panic_call,
                CtlEvent.switch_emulator emulator] }

/-- Embedding of generic_player_dynamic_load_bank (lines 342-357).
    The backend's open_bank_file return value (negative on failure) is a
    parameter.  On failure the function returns false without writing
    player_bank_file; on success it stores the path and returns true. -/
def generic_player_dynamic_load_bank (open_bank_file_result : Int)
    (reg : PlayerRegistry) (bankfile : String) : CtlResult :=
  if open_bank_file_result < 0 then
    { reg := reg
      reported := some false
      trace := [CtlEvent.acquire_blocking, CtlEvent.panic_call,
                CtlEvent.open_bank_file bankfile] }
  else
    { reg := { reg with player_bank_file := some bankfile }
      reported := some true
      trace := [CtlEvent.acquire_blocking, CtlEvent.panic_call,
                CtlEvent.open_bank_file bankfile] }

/-- Concrete backend instance used by witnesses: identity filters over the
    unit state. -/
def unitBackend : Backend Unit Unit :=
  { renderL := fun i => (i : ℚ)
    renderR := fun i => (i : ℚ) + 1
    dc_process := fun s x => (s, x)
    lv_process := fun s x => (s, x)
    gen_micros := 2900
    sample_rate := 44100 }

/-- Concrete starting state used by witnesses: constant nonzero buffers. -/
def initGenState : GenState Unit Unit :=
  { left := fun _ => 5
    right := fun _ => 7
    dclf := ()
    dcrf := ()
    lvm0 := ()
    lvm1 := ()
    lv0 := 0
    lv1 := 0
    cpu_load := 0 }

/-- Concrete registry used by witnesses and the C5 counterexample. -/
def initRegistry : PlayerRegistry :=
  { player_emulator_id := 2
    player_bank_file := some "banks.wopl" }

/-- Concrete channel map used by witnesses. -/
def initMap : Nat → Program := fun _ => { gm := 0 }

/-- The zero-fill loop leaves every strided position at zero. -/
theorem strideFill_zero_hit (buf : Nat → ℚ) (stride : Nat) :
    ∀ n i, i < n → strideFill buf stride (fun _ => 0) n (i * stride) = 0 := by
  intro n
  induction n with
  | zero => intro i hi; omega
  | succ n ih =>
    intro i hi
    simp only [strideFill, updateAt]
    by_cases h : i * stride = n * stride
    · simp [h]
    · rw [if_neg h]
      have hne : i ≠ n := fun he => h (by rw [he])
      exact ih i (by omega)

/-- A strided write loop does not touch positions that are not of the form
    i * stride with i below the frame count. -/
theorem strideFill_miss (buf vals : Nat → ℚ) (stride : Nat) :
    ∀ n j, (∀ i, i < n → j ≠ i * stride) → strideFill buf stride vals n j = buf j := by
  intro n
  induction n with
  | zero => intro j _; rfl
  | succ n ih =>
    intro j h
    simp only [strideFill, updateAt]
    rw [if_neg (h n (by omega))]
    exact ih j (fun i hi => h i (by omega))

/-- The post-processing loop does not touch buffer positions that are not of
    the form i * stride with i below the frame count. -/
theorem filterLoop_miss (b : Backend σ τ) (stride : Nat) :
    ∀ n (s : FilterSt σ τ) j, (∀ i, i < n → j ≠ i * stride) →
      (filterLoop b stride n s).left j = s.left j ∧
      (filterLoop b stride n s).right j = s.right j := by
  intro n
  induction n with
  | zero => intro s j _; exact ⟨rfl, rfl⟩
  | succ n ih =>
    intro s j h
    simp only [filterLoop, filterStep, updateAt]
    rw [if_neg (h n (by omega)), if_neg (h n (by omega))]
    exact ih s j (fun i hi => h i (by omega))

/-- Claim C1: for every positive frame count and every stride, when the
    try-lock on the Exclusivity Token fails, generic_generate_outputs writes
    exactly zero to the left and right sample of every frame in
    [0, frameCount) and returns without invoking the backend render
    operation. -/
theorem c1_contended_silence (b : Backend σ τ) (st : GenState σ τ)
    (nframes stride : Nat) (hn : nframes ≠ 0) :
    (∀ i, i < nframes →
      (generic_generate_outputs b st nframes stride false).1.left (i * stride) = 0 ∧
      (generic_generate_outputs b st nframes stride false).1.right (i * stride) = 0) ∧
    ∀ m, GenEvent.render_call m ∉ (generic_generate_outputs b st nframes stride false).2 := by
  constructor
  · intro i hi
    simp only [generic_generate_outputs, if_neg hn]
    simp only [Bool.not_false, if_pos rfl]
    exact ⟨strideFill_zero_hit st.left stride nframes i hi,
           strideFill_zero_hit st.right stride nframes i hi⟩
  · intro m
    simp [generic_generate_outputs, if_neg hn]

/-- Claim C10: generic_generate_outputs writes only the strided positions
    i * stride for i in [0, frameCount) of each buffer, on both the
    contended silence path and the uncontended render-and-filter path;
    every other position of the caller's buffers keeps its prior value. -/
theorem c10_strided_positions_only (b : Backend σ τ) (st : GenState σ τ)
    (nframes stride j : Nat) (lock_ok : Bool) (hs : 1 ≤ stride)
    (hj : ∀ i, i < nframes → j ≠ i * stride) :
    (generic_generate_outputs b st nframes stride lock_ok).1.left j = st.left j ∧
    (generic_generate_outputs b st nframes stride lock_ok).1.right j = st.right j := by
  by_cases hn : nframes = 0
  · subst hn; simp [generic_generate_outputs]
  · cases lock_ok with
    | false =>
      simp only [generic_generate_outputs, if_neg hn, Bool.not_false, if_pos rfl]
      exact ⟨strideFill_miss st.left _ stride nframes j hj,
             strideFill_miss st.right _ stride nframes j hj⟩
    | true =>
      simp only [generic_generate_outputs, if_neg hn, Bool.not_true,
                 Bool.false_eq_true, if_false]
      obtain ⟨hl, hr⟩ := filterLoop_miss b stride nframes
        { left := strideFill st.left stride b.renderL nframes
          right := strideFill st.right stride b.renderR nframes
          dclf := st.dclf, dcrf := st.dcrf, lvm0 := st.lvm0, lvm1 := st.lvm1
          lv0 := 0, lv1 := 0 } j hj
      refine ⟨?_, ?_⟩
      · exact hl.trans (strideFill_miss st.left _ stride nframes j hj)
      · exact hr.trans (strideFill_miss st.right _ stride nframes j hj)

/-- Witness for c1_contended_silence at frame count 3, stride 2. -/
theorem c1_contended_silence_witness :
    (∀ i, i < 3 →
      (generic_generate_outputs unitBackend initGenState 3 2 false).1.left (i * 2) = 0 ∧
      (generic_generate_outputs unitBackend initGenState 3 2 false).1.right (i * 2) = 0) ∧
    ∀ m, GenEvent.render_call m ∉ (generic_generate_outputs unitBackend initGenState 3 2 false).2 :=
  c1_contended_silence unitBackend initGenState 3 2 (by decide)

/-- Witness for c10_strided_positions_only at frame count 3, stride 2,
    position 3 (not a multiple of the stride below 3 frames). -/
theorem c10_strided_positions_only_witness :
    ((generic_generate_outputs unitBackend initGenState 3 2 true).1.left 3
        = initGenState.left 3 ∧
     (generic_generate_outputs unitBackend initGenState 3 2 true).1.right 3
        = initGenState.right 3) ∧
    (1 ≤ 2 ∧ ∀ i, i < 3 → 3 ≠ i * 2) :=
  ⟨c10_strided_positions_only unitBackend initGenState 3 2 3 true (by decide) (by decide),
   by decide, by decide⟩

/-- No render_call event occurs in the filter-frame section of the trace. -/
theorem count_render_in_filter_frames (n m : Nat) :
    ((List.range n).map GenEvent.filter_frame).count (GenEvent.render_call m) = 0 := by
  rw [List.count_eq_zero]
  simp

/-- Claim C7: on the uncontended path the backend render operation is
    invoked exactly once, with a sample-slot count of 2 * frameCount, and
    the Exclusivity Token is released after the render call and before any
    DC filtering, level monitoring, or telemetry update. -/
theorem c7_render_once_then_release (b : Backend σ τ) (st : GenState σ τ)
    (nframes stride : Nat) (hn : nframes ≠ 0) :
    ((generic_generate_outputs b st nframes stride true).2.count
        (GenEvent.render_call (2 * nframes)) = 1) ∧
    (∀ m, GenEvent.render_call m ∈ (generic_generate_outputs b st nframes stride true).2 →
        m = 2 * nframes) ∧
    ∃ post,
      (generic_generate_outputs b st nframes stride true).2
        = [GenEvent.try_acquire true, GenEvent.render_call (2 * nframes),
           GenEvent.release_token] ++ post ∧
      ∀ e ∈ post, (∃ i, e = GenEvent.filter_frame i) ∨
        e = GenEvent.store_lv ∨ e = GenEvent.store_cpu := by
  simp only [generic_generate_outputs, if_neg hn, Bool.not_true, Bool.false_eq_true,
             if_false]
  refine ⟨?_, ?_, ?_⟩
  · simp [List.count_append, List.count_cons, count_render_in_filter_frames]
  · intro m hm
    simp at hm
    omega
  · refine ⟨(List.range nframes).map GenEvent.filter_frame
        ++ [GenEvent.store_lv, GenEvent.store_cpu], by simp, ?_⟩
    intro e he
    simp only [List.mem_append, List.mem_map, List.mem_range, List.mem_cons,
               List.not_mem_nil, List.mem_singleton] at he
    rcases he with ⟨i, _, rfl⟩ | (rfl | rfl | h)
    · exact Or.inl ⟨i, rfl⟩
    · exact Or.inr (Or.inl rfl)
    · exact Or.inr (Or.inr rfl)
    · cases h

/-- Witness for c7_render_once_then_release at frame count 4, stride 1. -/
theorem c7_render_once_then_release_witness :
    ((generic_generate_outputs unitBackend initGenState 4 1 true).2.count
        (GenEvent.render_call (2 * 4)) = 1) ∧
    (∀ m, GenEvent.render_call m ∈ (generic_generate_outputs unitBackend initGenState 4 1 true).2 →
        m = 2 * 4) ∧
    ∃ post,
      (generic_generate_outputs unitBackend initGenState 4 1 true).2
        = [GenEvent.try_acquire true, GenEvent.render_call (2 * 4),
           GenEvent.release_token] ++ post ∧
      ∀ e ∈ post, (∃ i, e = GenEvent.filter_frame i) ∨
        e = GenEvent.store_lv ∨ e = GenEvent.store_cpu :=
  c7_render_once_then_release unitBackend initGenState 4 1 (by decide)

/-- Claim C9: after an uncontended call the stored engine-load ratio equals
    measured generation seconds divided by frameCount / sampleRate, is
    stored unclamped (a value above one is kept as-is), and in particular
    for frameCount 256, sample rate 44100 and a measured generation time of
    2.9 milliseconds (2900 microseconds) the stored ratio is within 0.01 of
    0.5. -/
theorem c9_engine_load_unclamped (b : Backend σ τ) (st : GenState σ τ)
    (nframes stride : Nat) (hn : nframes ≠ 0) :
    ((generic_generate_outputs b st nframes stride true).1.cpu_load
      = ((b.gen_micros : ℚ) / 1000000) / ((nframes : ℚ) / (b.sample_rate : ℚ))) ∧
    (1 < ((b.gen_micros : ℚ) / 1000000) / ((nframes : ℚ) / (b.sample_rate : ℚ)) →
      1 < (generic_generate_outputs b st nframes stride true).1.cpu_load) ∧
    (b.gen_micros = 2900 → b.sample_rate = 44100 → nframes = 256 →
      |(generic_generate_outputs b st nframes stride true).1.cpu_load - 1 / 2| < 1 / 100) := by
  have hload : (generic_generate_outputs b st nframes stride true).1.cpu_load
      = ((b.gen_micros : ℚ) / 1000000) / ((nframes : ℚ) / (b.sample_rate : ℚ)) := by
    simp only [generic_generate_outputs, if_neg hn, Bool.not_true, Bool.false_eq_true,
               if_false]
  refine ⟨hload, ?_, ?_⟩
  · intro h; rw [hload]; exact h
  · intro hm hr hf
    rw [hload, hm, hr, hf]
    rw [abs_sub_lt_iff]
    constructor <;> norm_num

/-- Witness for c9_engine_load_unclamped at the specification's scenario:
    frame count 256, sample rate 44100, generation time 2900 microseconds. -/
theorem c9_engine_load_unclamped_witness :
    |(generic_generate_outputs unitBackend initGenState 256 2 true).1.cpu_load - 1 / 2|
      < 1 / 100 :=
  (c9_engine_load_unclamped unitBackend initGenState 256 2 (by decide)).2.2 rfl rfl rfl

/-- Bitwise facts about a note-on status byte 0x90 + ch. -/
theorem status_bits_note_on (ch : Nat) (h : ch < 16) :
    (144 + ch) &&& 0xf0 = 144 ∧ (144 + ch) >>> 4 = 9 ∧ (144 + ch) &&& 0x0f = ch := by
  interval_cases ch <;> decide

/-- Bitwise facts about a note-off status byte 0x80 + ch. -/
theorem status_bits_note_off (ch : Nat) (h : ch < 16) :
    (128 + ch) &&& 0xf0 = 128 ∧ (128 + ch) >>> 4 = 8 ∧ (128 + ch) &&& 0x0f = ch := by
  interval_cases ch <;> decide

/-- Bitwise facts about a program-change status byte 0xC0 + ch. -/
theorem status_bits_program (ch : Nat) (h : ch < 16) :
    (192 + ch) &&& 0xf0 = 192 ∧ (192 + ch) >>> 4 = 12 ∧ (192 + ch) &&& 0x0f = ch := by
  interval_cases ch <;> decide

/-- Claim C2: for every channel, key, and message of length at least three,
    dispatching a note-on with velocity zero has exactly the same effect as
    dispatching a note-off for the same channel and key: the backend
    receives one note-off event for that channel and key and no note-on
    event, and the channel map is untouched. -/
theorem c2_noteon_velocity_zero_is_noteoff (cm : Nat → Program) (ch k v : Nat)
    (t t' : List Nat) (hch : ch < 16) :
    generic_play_midi cm true ((144 + ch) :: k :: 0 :: t)
      = generic_play_midi cm true ((128 + ch) :: k :: v :: t') ∧
    generic_play_midi cm true ((144 + ch) :: k :: 0 :: t)
      = ([BackendEvent.noteOff ch k], cm) := by
  obtain ⟨hA, hB, hC⟩ := status_bits_note_on ch hch
  obtain ⟨hD, hE, hF⟩ := status_bits_note_off ch hch
  have hl1 : ¬ (t.length + 1 + 1 + 1 < 3) := by omega
  have hl2 : ¬ (t'.length + 1 + 1 + 1 < 3) := by omega
  have h1 : generic_play_midi cm true ((144 + ch) :: k :: 0 :: t)
      = ([BackendEvent.noteOff ch k], cm) := by
    simp [generic_play_midi, hA, hB, hC, hl1]
  have h2 : generic_play_midi cm true ((128 + ch) :: k :: v :: t')
      = ([BackendEvent.noteOff ch k], cm) := by
    simp [generic_play_midi, hD, hE, hF, hl2]
  exact ⟨h1.trans h2.symm, h1⟩

/-- Witness for c2_noteon_velocity_zero_is_noteoff on channel 0, key 64
    (the specification's scenario message 0x90 0x40 0x00). -/
theorem c2_noteon_velocity_zero_is_noteoff_witness :
    (generic_play_midi initMap true ((144 + 0) :: 64 :: 0 :: [])
      = generic_play_midi initMap true ((128 + 0) :: 64 :: 127 :: []) ∧
    generic_play_midi initMap true ((144 + 0) :: 64 :: 0 :: [])
      = ([BackendEvent.noteOff 0 64], initMap)) ∧ (0 : Nat) < 16 :=
  ⟨c2_noteon_velocity_zero_is_noteoff initMap 0 64 127 [] [] (by decide), by decide⟩

/-- Claim C3: for every program-change message of length at least two with
    program byte p on channel ch, dispatched with the token acquired, the
    channel map entry for ch afterwards equals p masked to 7 bits, the
    backend received exactly one program-change event carrying that masked
    value, and every other channel's entry is unchanged. -/
theorem c3_program_change_masked (cm : Nat → Program) (ch p : Nat)
    (t : List Nat) (hch : ch < 16) :
    (generic_play_midi cm true ((192 + ch) :: p :: t)).1
      = [BackendEvent.programChange ch (p &&& 0x7f)] ∧
    (generic_play_midi cm true ((192 + ch) :: p :: t)).2 ch = { gm := p &&& 0x7f } ∧
    ∀ c, c ≠ ch → (generic_play_midi cm true ((192 + ch) :: p :: t)).2 c = cm c := by
  obtain ⟨hA, hB, hC⟩ := status_bits_program ch hch
  have hl : ¬ (t.length + 1 + 1 < 2) := by omega
  refine ⟨?_, ?_, ?_⟩
  · simp [generic_play_midi, hA, hB, hC, hl]
  · simp [generic_play_midi, hA, hB, hC, hl]
  · intro c hc
    simp [generic_play_midi, hA, hB, hC, hl, hc]

/-- Witness for c3_program_change_masked on channel 1, program byte 0xFF
    (whose 7-bit mask is 0x7F). -/
theorem c3_program_change_masked_witness :
    ((generic_play_midi initMap true ((192 + 1) :: 255 :: [])).1
      = [BackendEvent.programChange 1 (255 &&& 0x7f)] ∧
    (generic_play_midi initMap true ((192 + 1) :: 255 :: [])).2 1
      = { gm := 255 &&& 0x7f } ∧
    ∀ c, c ≠ 1 → (generic_play_midi initMap true ((192 + 1) :: 255 :: [])).2 c
      = initMap c) ∧ (1 : Nat) < 16 :=
  ⟨c3_program_change_masked initMap 1 255 [] (by decide), by decide⟩

/-- Claim C6: every message that is empty, or whose status high nibble is
    0xF, or that is shorter than its message type requires (three bytes for
    note-on, note-off, polyphonic aftertouch, controller change and pitch
    bend; two bytes for program change and channel aftertouch) produces no
    backend event and leaves the channel map unchanged; the function
    signals no error (it is total and returns normally). -/
theorem c6_malformed_input_noop (cm : Nat → Program) (msg : List Nat)
    (h : msg.length = 0 ∨
         msg.headD 0 &&& 0xf0 = 0xf0 ∨
         ((msg.headD 0 >>> 4 = 8 ∨ msg.headD 0 >>> 4 = 9 ∨ msg.headD 0 >>> 4 = 10 ∨
           msg.headD 0 >>> 4 = 11 ∨ msg.headD 0 >>> 4 = 14) ∧ msg.length < 3) ∨
         ((msg.headD 0 >>> 4 = 12 ∨ msg.headD 0 >>> 4 = 13) ∧ msg.length < 2)) :
    generic_play_midi cm true msg = ([], cm) := by
  rcases h with h | h | ⟨h1, h2⟩ | ⟨h1, h2⟩
  · simp [generic_play_midi, h]
  · by_cases hl : msg.length = 0
    · simp [generic_play_midi, hl]
    · rw [List.headD_eq_head?] at h
      simp [generic_play_midi, hl, h]
  · by_cases hl : msg.length = 0
    · simp [generic_play_midi, hl]
    · by_cases hf : msg.headD 0 &&& 0xf0 = 0xf0
      · rw [List.headD_eq_head?] at hf
        simp [generic_play_midi, hl, hf]
      · rw [List.headD_eq_head?] at hf
        rcases h1 with h1 | h1 | h1 | h1 | h1 <;>
          rw [List.headD_eq_head?] at h1 <;>
          simp [generic_play_midi, hl, hf, h1, h2]
  · by_cases hl : msg.length = 0
    · simp [generic_play_midi, hl]
    · by_cases hf : msg.headD 0 &&& 0xf0 = 0xf0
      · rw [List.headD_eq_head?] at hf
        simp [generic_play_midi, hl, hf]
      · rw [List.headD_eq_head?] at hf
        rcases h1 with h1 | h1 <;>
          rw [List.headD_eq_head?] at h1 <;>
          simp [generic_play_midi, hl, hf, h1, h2]

/-- Witness for c6_malformed_input_noop: a system real-time byte 0xF8, and
    a truncated note-on message of two bytes. -/
theorem c6_malformed_input_noop_witness :
    generic_play_midi initMap true [248] = ([], initMap) ∧
    generic_play_midi initMap true [144, 64] = ([], initMap) :=
  ⟨c6_malformed_input_noop initMap [248] (by decide),
   c6_malformed_input_noop initMap [144, 64] (by decide)⟩

/-- Claim C4: setEmulatorDynamic commits the new emulator id to the
    registry only when the backend switch-emulator call reports success
    (nonnegative result), and loadBankDynamic commits the new bank path
    only when the backend open-bank-file call reports success; on backend
    failure (negative result) the previously stored emulator id and bank
    path are unchanged. -/
theorem c4_commit_only_on_success (res : Int) (reg : PlayerRegistry)
    (e : Nat) (path : String) :
    (res < 0 → (generic_player_dynamic_set_emulator res reg e).reg = reg) ∧
    (0 ≤ res → (generic_player_dynamic_set_emulator res reg e).reg
        = { reg with player_emulator_id := e }) ∧
    (res < 0 → (generic_player_dynamic_load_bank res reg path).reg = reg) ∧
    (0 ≤ res → (generic_player_dynamic_load_bank res reg path).reg
        = { reg with player_bank_file := some path }) := by
  refine ⟨?_, ?_, ?_, ?_⟩ <;> intro h
  · simp [generic_player_dynamic_set_emulator, h]
  · simp [generic_player_dynamic_set_emulator, not_lt.mpr h]
  · simp [generic_player_dynamic_load_bank, h]
  · simp [generic_player_dynamic_load_bank, not_lt.mpr h]

/-- Witness for c4_commit_only_on_success: a failing backend call (result
    -1) leaves the registry unchanged, and a succeeding one (result 0)
    commits the new bank path. -/
theorem c4_commit_only_on_success_witness :
    ((-1 : Int) < 0 ∧
      (generic_player_dynamic_set_emulator (-1) initRegistry 7).reg = initRegistry) ∧
    ((0 : Int) ≤ 0 ∧
      (generic_player_dynamic_load_bank 0 initRegistry "new.wopl").reg
        = { initRegistry with player_bank_file := some "new.wopl" }) :=
  ⟨⟨by decide, (c4_commit_only_on_success (-1) initRegistry 7 "new.wopl").1 (by decide)⟩,
   ⟨by decide, (c4_commit_only_on_success 0 initRegistry 7 "new.wopl").2.2.2 (by decide)⟩⟩

/-- Counterexample to claim C5: with the backend reporting failure (result
    -1) for the invalid chip count 0, generic_player_dynamic_set_chip_count
    returns no value at all (the C function is void), so no failure signal
    reaches the caller; the same holds for set-emulator at the out-of-range
    id 99. -/
theorem c5_counterexample_void_returns :
    ¬ ((generic_player_dynamic_set_chip_count (-1) initRegistry 0).reported
        = some false) ∧
    ¬ ((generic_player_dynamic_set_emulator (-1) initRegistry 99).reported
        = some false) := by
  constructor
  · simp [generic_player_dynamic_set_chip_count]
  · simp [generic_player_dynamic_set_emulator]

/-- Claim C5 as amended: of the three dynamic reconfiguration operations
    only loadBankDynamic reports failure to its caller (it returns false
    when the backend open-bank-file call fails); setChipCountDynamic and
    setEmulatorDynamic are void and give the caller no failure signal,
    although an out-of-range emulator id still leaves the previous emulator
    active. -/
theorem c5_amended_only_load_bank_reports (res : Int) (reg : PlayerRegistry)
    (n e : Nat) (path : String) :
    (generic_player_dynamic_set_chip_count res reg n).reported = none ∧
    (generic_player_dynamic_set_emulator res reg e).reported = none ∧
    (res < 0 → (generic_player_dynamic_set_emulator res reg e).reg = reg) ∧
    (res < 0 → (generic_player_dynamic_load_bank res reg path).reported = some false) := by
  refine ⟨rfl, ?_, ?_, ?_⟩
  · by_cases h : res < 0 <;> simp [generic_player_dynamic_set_emulator, h]
  · intro h; simp [generic_player_dynamic_set_emulator, h]
  · intro h; simp [generic_player_dynamic_load_bank, h]

/-- Witness for c5_amended_only_load_bank_reports at the failing backend
    result -1. -/
theorem c5_amended_only_load_bank_reports_witness :
    ((generic_player_dynamic_set_chip_count (-1) initRegistry 0).reported = none ∧
     (generic_player_dynamic_set_emulator (-1) initRegistry 99).reported = none ∧
     (generic_player_dynamic_set_emulator (-1) initRegistry 99).reg = initRegistry ∧
     (generic_player_dynamic_load_bank (-1) initRegistry "bad.wopl").reported
        = some false) ∧ (-1 : Int) < 0 :=
  ⟨⟨(c5_amended_only_load_bank_reports (-1) initRegistry 0 99 "bad.wopl").1,
    (c5_amended_only_load_bank_reports (-1) initRegistry 0 99 "bad.wopl").2.1,
    (c5_amended_only_load_bank_reports (-1) initRegistry 0 99 "bad.wopl").2.2.1 (by decide),
    (c5_amended_only_load_bank_reports (-1) initRegistry 0 99 "bad.wopl").2.2.2 (by decide)⟩,
   by decide⟩

/-- Claim C8: each of the three dynamic reconfiguration operations first
    acquires the Exclusivity Token in blocking mode, then invokes panic on
    the player handle, and only after that performs its backend mutation
    (set chip count, switch emulator, or open bank file), whatever the
    backend result is. -/
theorem c8_acquire_panic_then_mutate (res : Int) (reg : PlayerRegistry)
    (n e : Nat) (path : String) :
    (generic_player_dynamic_set_chip_count res reg n).trace
      = [CtlEvent.acquire_blocking, CtlEvent.panic_call, CtlEvent.set_num_chips n] ∧
    (generic_player_dynamic_set_emulator res reg e).trace
      = [CtlEvent.acquire_blocking, CtlEvent.panic_call, CtlEvent.switch_emulator e] ∧
    (generic_player_dynamic_load_bank res reg path).trace
      = [CtlEvent.acquire_blocking, CtlEvent.panic_call, CtlEvent.open_bank_file path] := by
  refine ⟨rfl, ?_, ?_⟩ <;> by_cases h : res < 0 <;>
    simp [generic_player_dynamic_set_emulator, generic_player_dynamic_load_bank, h]

end Adljack
